import Mathlib

/-!
Shallow embedding of the Workflow Validation Gate & State-Tracking Engine of
the MD-Agents repository (`src/tools/validation_tools_protein.py` and
`src/tools/workflow_logger.py`), together with theorems settling the claims
about it.

Modelling conventions:
* A file's content is its list of lines, each line a `List Char`
  (Python reads the file and splits on newline; fixed-width PDB column
  slicing like `line[17:20]` becomes `slice l 17 20`).
* The file system is a finite association list from absolute path to content.
  `os.path.exists` is membership; `os.listdir dir` lists the direct children.
* Timestamps (`datetime.now()`) are omitted from the validation-history
  entries: no claim concerns them.
* Python truthiness of an `Optional[str]` field (`if self.x:`) is
  `x ≠ None ∧ x ≠ ""`, modelled by testing `x.getD "" ≠ ""`.
-/

namespace MDAgents

/-- One line of a text file, as a character list (for fixed-width slicing). -/
abbrev Line := List Char

/-- Python `l[a:b]` on a line. -/
def slice (l : Line) (a b : Nat) : Line := (l.drop a).take (b - a)

/-- Python `str.startswith` on character lists. -/
def lstartsWith (l pre : Line) : Bool := l.take pre.length == pre

/-- Python `str.endswith` on character lists. -/
def lendsWith (l suf : Line) : Bool :=
  decide (suf.length ≤ l.length) && (l.drop (l.length - suf.length) == suf)

/-- Whitespace characters removed by Python `str.strip()`. -/
def isSpaceChar (c : Char) : Bool := c == ' ' || c == '\t' || c == '\n' || c == '\r'

/-- Python `str.strip()` on character lists. -/
def strip (l : Line) : Line :=
  ((l.dropWhile isSpaceChar).reverse.dropWhile isSpaceChar).reverse

/-- Python `pat in hay` (substring test) on character lists. -/
def containsSub (hay pat : Line) : Bool :=
  (List.range (hay.length + 1)).any (fun i => (hay.drop i).take pat.length == pat)

/-- Lower-casing for Python `str.lower()` (ASCII, as in the PDB fields used). -/
def toLowerLine (l : Line) : Line := l.map Char.toLower

/-- `os.path.isabs`. -/
def isAbs (p : String) : Bool := lstartsWith p.toList ['/']

/-- `os.path.join(dir, f)` for the non-absolute `f` case used by the code. -/
def joinPath (dir f : String) : String := dir ++ "/" ++ f

/-- The path normalisation at the top of every validator:
`full_path = pdb_file if isabs else join(workdir, pdb_file)`. -/
def fullPath (workdir p : String) : String := if isAbs p then p else joinPath workdir p

/-- `os.path.basename`. -/
def basename (p : String) : String :=
  String.mk ((p.toList.reverse.takeWhile (fun c => c ≠ '/')).reverse)

/-- File system model: association list from absolute path to file lines. -/
structure FS where
  files : List (String × List Line)

/-- Reading a file (`open(full_path).read()` + split into lines). -/
def FS.read (fs : FS) (p : String) : Option (List Line) := fs.files.lookup p

/-- `os.path.exists`. -/
def FS.pathExists (fs : FS) (p : String) : Bool := (fs.read p).isSome

/-- `os.listdir dir`: names of the direct children of `dir`. -/
def FS.listdir (fs : FS) (dir : String) : List String :=
  fs.files.filterMap (fun e =>
    let p := e.fst.toList
    let d := (dir ++ "/").toList
    if lstartsWith p d && !((p.drop d.length).contains '/') then
      some (String.mk (p.drop d.length))
    else none)

/-- One entry of `ValidationManager.validation_history`
(timestamp omitted, see module comment). -/
structure HistEntry where
  htype : String
  success : Bool
  message : String
deriving DecidableEq

/-- The mutable state of a `ValidationManager` instance. -/
structure VState where
  structure_validated : Bool
  forcefield_validated : Bool
  system_prepared : Bool
  validated_structure_file : Option String
  validated_forcefield : Option String
  validated_system_file : Option String
  validation_history : List HistEntry
deriving DecidableEq

/-- State after `__init__`. -/
def initState : VState :=
  { structure_validated := false
    forcefield_validated := false
    system_prepared := false
    validated_structure_file := none
    validated_forcefield := none
    validated_system_file := none
    validation_history := [] }

/-- `_log_validation`. -/
def logV (s : VState) (t : String) (ok : Bool) (m : String) : VState :=
  { s with validation_history := s.validation_history ++ [⟨t, ok, m⟩] }

/-- Python truthiness of an `Optional[str]`. -/
def strTruthy (x : Option String) : Bool := !(x.getD "" == "")

/-- The `standard_aa` set (23 names, identical in `validate_structure` and
`validate_forcefield_coverage`). -/
def standard_aa : List Line :=
  (["ALA", "ARG", "ASN", "ASP", "CYS", "GLN", "GLU", "GLY",
    "HIS", "ILE", "LEU", "LYS", "MET", "PHE", "PRO", "SER",
    "THR", "TRP", "TYR", "VAL", "HIE", "HID", "HIP"].map String.toList)

/-- The `backbone_atoms` set `{CA, C, N}`. -/
def backbone_atoms : List Line := (["CA", "C", "N"].map String.toList)

/-- Abstracts the Python textual rendering of a set of residue/atom names
inside failure messages; no claim depends on this exact text. -/
def renderNameSet (l : List Line) : String :=
  String.intercalate ", " (l.map String.mk)

/-- The ATOM/HETATM records of a file (`line.startswith('ATOM') or
line.startswith('HETATM')`). -/
def atomRecords (lines : List Line) : List Line :=
  lines.filter (fun l => lstartsWith l "ATOM".toList || lstartsWith l "HETATM".toList)

/-- The residue keys `f"{chain}_{resnum}_{resname}"` collected from lines of
length ≥ 26, as a set (first-occurrence dedup). -/
def residueKeys (atom_lines : List Line) : List Line :=
  (atom_lines.filterMap (fun l =>
    if l.length ≥ 26 then
      some (slice l 21 22 ++ ['_'] ++ strip (slice l 22 26) ++ ['_'] ++ strip (slice l 17 20))
    else none)).dedup

/-- The chain identifiers collected from lines of length ≥ 26, as a set. -/
def chainIds (atom_lines : List Line) : List Line :=
  (atom_lines.filterMap (fun l => if l.length ≥ 26 then some (slice l 21 22) else none)).dedup

/-- `aa_residues`: residue keys whose third `_`-separated field is a standard
amino acid. -/
def aaResidues (atom_lines : List Line) : List Line :=
  (residueKeys atom_lines).filter (fun r => standard_aa.contains ((r.splitOn '_').getD 2 []))

/-- `found_backbone`: which of CA/C/N occur as an atom name (columns 12–16)
in any record of length ≥ 16. -/
def foundBackbone (atom_lines : List Line) : List Line :=
  (atom_lines.filterMap (fun l =>
    if l.length ≥ 16 then
      let nm := strip (slice l 12 16)
      if backbone_atoms.contains nm then some nm else none
    else none)).dedup

/-- `missing_backbone = backbone_atoms - found_backbone`. -/
def missingBackbone (atom_lines : List Line) : List Line :=
  backbone_atoms.filter (fun a => !((foundBackbone atom_lines).contains a))

/-- `ValidationManager.validate_structure`. Returns the updated state and the
`(is_valid, message)` pair. -/
def validate_structure (fs : FS) (workdir : String) (s : VState) (pdb_file : String) :
    VState × Bool × String :=
  let full_path := fullPath workdir pdb_file
  match fs.read full_path with
  | none =>
    let msg := "❌ Structure file not found: " ++ pdb_file
    (logV s "structure" false msg, false, msg)
  | some lines =>
    let atom_lines := atomRecords lines
    if atom_lines.length < 10 then
      let msg := "❌ PDB has insufficient atoms: " ++ Nat.repr atom_lines.length
        ++ " ATOM/HETATM records"
      (logV s "structure" false msg, false, msg)
    else
      if !(missingBackbone atom_lines).isEmpty && (aaResidues atom_lines).length > 0 then
        let msg := "⚠️ Missing backbone atoms: " ++ renderNameSet (missingBackbone atom_lines)
        (logV s "structure" false msg, false, msg)
      else
        let s1 := { s with structure_validated := true
                           validated_structure_file := some full_path }
        let msg := "✅ Structure validated: " ++ basename pdb_file
          ++ "\n   📊 " ++ Nat.repr atom_lines.length ++ " atoms, "
          ++ Nat.repr (residueKeys atom_lines).length ++ " residues, "
          ++ Nat.repr (chainIds atom_lines).length ++ " chain(s)"
          ++ "\n   🧬 " ++ Nat.repr (aaResidues atom_lines).length ++ " amino acid residues"
        (logV s1 "structure" true msg, true, msg)

/-- `check_structure_status`. Returns the updated state and the message. -/
def check_structure_status (fs : FS) (s : VState) : VState × String :=
  let f := s.validated_structure_file.getD ""
  if s.structure_validated && !(f == "") then
    if fs.pathExists f then
      (s, "✅ Structure validated: " ++ basename f)
    else
      ({ s with structure_validated := false, validated_structure_file := none },
       "❌ Previously validated structure file no longer exists")
  else (s, "❌ No structure has been validated")

/-- `mark_structure_validated`. -/
def mark_structure_validated (fs : FS) (workdir : String) (s : VState) (pdb_file : String) :
    VState × String :=
  let full_path := fullPath workdir pdb_file
  if fs.pathExists full_path then
    let s1 := { s with structure_validated := true
                       validated_structure_file := some full_path }
    (logV s1 "structure" true ("Manually marked validated: " ++ pdb_file),
     "✅ Structure marked as validated: " ++ pdb_file)
  else
    (s, "❌ Cannot mark as validated - file not found: " ++ pdb_file)

/-- The `available_forcefields` registry. -/
def available_forcefields : List String :=
  ["amber14-all.xml", "amber99sb.xml", "amber99sbildn.xml", "charmm36.xml", "amoeba2013.xml"]

/-- The `common_solvent` residue-name set. -/
def common_solvent : List Line :=
  (["HOH", "WAT", "TIP3", "SOL", "NA", "CL", "K", "MG", "CA"].map String.toList)

/-- The `known_hetero` exception set. -/
def known_hetero : List Line :=
  (["ACE", "NME", "NH2", "GDP", "GTP", "ATP", "ADP", "NAG", "MAN"].map String.toList)

/-- Force-field name normalisation: append `.xml` when absent. -/
def normalizeFF (forcefield : String) : String :=
  if lendsWith forcefield.toList ".xml".toList then forcefield else forcefield ++ ".xml"

/-- `known_ff`: registry membership or an `amber`/`charmm` substring of the
lower-cased normalised name. -/
def knownFF (forcefield : String) : Bool :=
  let ff_name := normalizeFF forcefield
  available_forcefields.contains ff_name
    || containsSub (toLowerLine ff_name.toList) "amber".toList
    || containsSub (toLowerLine ff_name.toList) "charmm".toList

/-- The residue-name vocabulary of a file: `resname` (columns 17–20, stripped)
of every ATOM/HETATM line of length ≥ 20, as a set. -/
def residueTypes (lines : List Line) : List Line :=
  (lines.filterMap (fun l =>
    if (lstartsWith l "ATOM".toList || lstartsWith l "HETATM".toList) && l.length ≥ 20 then
      some (strip (slice l 17 20))
    else none)).dedup

/-- `unsupported = residue_types - standard_aa - common_solvent`. -/
def unsupportedResidues (lines : List Line) : List Line :=
  (residueTypes lines).filter
    (fun r => !(standard_aa.contains r) && !(common_solvent.contains r))

/-- `unknown = unsupported - known_hetero`. -/
def unknownResidues (lines : List Line) : List Line :=
  (unsupportedResidues lines).filter (fun r => !(known_hetero.contains r))

/-- `ValidationManager.validate_forcefield_coverage`. -/
def validate_forcefield_coverage (fs : FS) (workdir : String) (s : VState)
    (pdb_file : String) (forcefield : String) : VState × Bool × String :=
  let full_path := fullPath workdir pdb_file
  match fs.read full_path with
  | none =>
    let msg := "❌ PDB file not found for forcefield validation: " ++ pdb_file
    (logV s "forcefield" false msg, false, msg)
  | some lines =>
    if !(knownFF forcefield) then
      let msg := "⚠️ Force field '" ++ forcefield ++ "' may not be available. Known: "
        ++ String.intercalate ", " available_forcefields
      (logV s "forcefield" false msg, false, msg)
    else
      if !(unsupportedResidues lines).isEmpty && !(unknownResidues lines).isEmpty then
        let msg := "⚠️ Force field may not cover residue types: "
          ++ renderNameSet (unknownResidues lines)
          ++ "\n   Consider removing non-standard residues or adding parameters"
        (logV s "forcefield" false msg, false, msg)
      else
        let s1 := { s with forcefield_validated := true
                           validated_forcefield := some forcefield }
        let msg := "✅ Force field validated: " ++ forcefield
          ++ "\n   📊 " ++ Nat.repr (residueTypes lines).length ++ " residue types found"
          ++ "\n   🧬 All residues appear to be parameterized"
        (logV s1 "forcefield" true msg, true, msg)

/-- `check_forcefield_status` (pure read). -/
def check_forcefield_status (s : VState) : String :=
  if s.forcefield_validated && strTruthy s.validated_forcefield then
    "✅ Force field validated: " ++ s.validated_forcefield.getD ""
  else "❌ No force field has been validated"

/-- `mark_forcefield_validated`: no existence or registry check at all. -/
def mark_forcefield_validated (s : VState) (forcefield : String) (pdb_file : String) :
    VState × String :=
  let s1 := { s with forcefield_validated := true
                     validated_forcefield := some forcefield }
  (logV s1 "forcefield" true
     ("Manually marked validated: " ++ forcefield ++ " for " ++ pdb_file),
   "✅ Force field marked as validated: " ++ forcefield)

/-- The `water_names` set (note `TIP3P` has 5 characters and can never equal a
3-character resname slice; kept verbatim from the source). -/
def water_names : List Line :=
  (["HOH", "WAT", "TIP3", "SOL", "TIP3P"].map String.toList)

/-- The `ion_names` set. -/
def ion_names : List Line :=
  (["NA", "CL", "K", "MG", "CA", "NA+", "CL-"].map String.toList)

/-- resname of an atom record (columns 17–20, stripped). -/
def resnameOf (l : Line) : Line := strip (slice l 17 20)

/-- `water_count`: ATOM/HETATM lines of length ≥ 20 whose resname is a water name. -/
def waterCount (lines : List Line) : Nat :=
  ((atomRecords lines).filter
    (fun l => l.length ≥ 20 && water_names.contains (resnameOf l))).length

/-- `ion_count` (Python `elif`: not water, resname an ion name). -/
def ionCount (lines : List Line) : Nat :=
  ((atomRecords lines).filter
    (fun l => l.length ≥ 20 && !(water_names.contains (resnameOf l))
      && ion_names.contains (resnameOf l))).length

/-- `protein_atoms` (Python `else`: length ≥ 20, neither water nor ion). -/
def proteinCount (lines : List Line) : Nat :=
  ((atomRecords lines).filter
    (fun l => l.length ≥ 20 && !(water_names.contains (resnameOf l))
      && !(ion_names.contains (resnameOf l)))).length

/-- The composition `issues` list, in source order. -/
def prepIssues (lines : List Line) : List String :=
  (if proteinCount lines < 100 then
      ["Low protein atom count: " ++ Nat.repr (proteinCount lines)] else [])
  ++ (if waterCount lines < 100 then
      ["Low water count: " ++ Nat.repr (waterCount lines) ++ " - may need more solvation"] else [])
  ++ (if ionCount lines == 0 then
      ["No ions found - system may not be neutralized"] else [])

/-- Python `"\n   ".join`. -/
def joinIssues : List String → String
  | [] => ""
  | [x] => x
  | x :: y :: xs => x ++ "\n   " ++ joinIssues (y :: xs)

/-- `ValidationManager.validate_system_preparation`. -/
def validate_system_preparation (fs : FS) (workdir : String) (s : VState)
    (system_file : String) : VState × Bool × String :=
  let full_path := fullPath workdir system_file
  match fs.read full_path with
  | none =>
    let msg := "❌ System file not found: " ++ system_file
    (logV s "system" false msg, false, msg)
  | some lines =>
    if !(prepIssues lines).isEmpty then
      let msg := "⚠️ System preparation issues:\n   " ++ joinIssues (prepIssues lines)
      (logV s "system" false msg, false, msg)
    else
      let s1 := { s with system_prepared := true
                         validated_system_file := some full_path }
      let msg := "✅ System prepared: " ++ basename system_file
        ++ "\n   📊 " ++ Nat.repr (atomRecords lines).length ++ " total atoms"
        ++ "\n   🧬 " ++ Nat.repr (proteinCount lines) ++ " protein atoms"
        ++ "\n   💧 " ++ Nat.repr (waterCount lines) ++ " water atoms"
        ++ "\n   ⚡ " ++ Nat.repr (ionCount lines) ++ " ion atoms"
      (logV s1 "system" true msg, true, msg)

/-- `check_system_ready`. -/
def check_system_ready (fs : FS) (s : VState) : VState × Bool × String :=
  let f := s.validated_system_file.getD ""
  if s.system_prepared && !(f == "") then
    if fs.pathExists f then
      (s, true, "✅ System ready: " ++ basename f)
    else
      ({ s with system_prepared := false, validated_system_file := none },
       false, "❌ Prepared system file no longer exists")
  else (s, false, "❌ No system has been prepared for simulation")

/-- `_find_pdb_files`: `.pdb` entries of the working directory, workdir-joined. -/
def find_pdb_files (fs : FS) (workdir : String) : List String :=
  (fs.listdir workdir).filterMap (fun f =>
    if lendsWith f.toList ".pdb".toList then some (joinPath workdir f) else none)

/-- Which branch the structure section of `check_workflow_status`
(lines 408–430) took; records the control flow as data. -/
inductive StructOutcome where
  /-- State said validated and the stored file still exists: accepted as-is. -/
  | storedOk (f : String)
  /-- State said validated but the stored file is gone: demoted, no discovery. -/
  | missing
  /-- Unvalidated; auto-discovery found a candidate and it validated. -/
  | autoDetected (p : String) (msg : String)
  /-- Unvalidated; auto-discovery found a candidate but validation failed. -/
  | autoFailed (p : String) (msg : String)
  /-- Unvalidated and no candidate file found. -/
  | noneFound
deriving DecidableEq

/-- The auto-discovery `else` branch of the structure section. -/
def structureDiscover (fs : FS) (workdir : String) (s : VState) : VState × StructOutcome :=
  match find_pdb_files fs workdir with
  | [] => (s, .noneFound)
  | p :: _ =>
    let r := validate_structure fs workdir s p
    if r.2.1 then (r.1, .autoDetected p r.2.2) else (r.1, .autoFailed p r.2.2)

/-- The structure section of `check_workflow_status`. -/
def structureGate (fs : FS) (workdir : String) (s : VState) : VState × StructOutcome :=
  let f := s.validated_structure_file.getD ""
  if s.structure_validated && !(f == "") then
    if fs.pathExists f then (s, .storedOk f)
    else ({ s with structure_validated := false, validated_structure_file := none }, .missing)
  else structureDiscover fs workdir s

/-- The status line appended for the structure section. -/
def structStatusPart : StructOutcome → String
  | .storedOk f => "✅ Structure: " ++ basename f
  | .missing => "❌ Structure file missing"
  | .autoDetected p _ => "✅ Structure: " ++ basename p ++ " (auto-detected)"
  | .autoFailed _ m => "❌ Structure: " ++ m
  | .noneFound => "❌ No structure file found"

/-- Whether the structure section left `all_valid` untouched (true) or set it
to false. -/
def structOutcomeOk : StructOutcome → Bool
  | .storedOk _ => true
  | .autoDetected _ _ => true
  | _ => false

/-- The status line appended for the force-field section. -/
def forcefieldStatusPart (s : VState) : String :=
  if s.forcefield_validated && strTruthy s.validated_forcefield then
    "✅ Force field: " ++ s.validated_forcefield.getD ""
  else "❌ Force field not validated"

/-- `ValidationManager.check_workflow_status`. The two status parts are joined
with `"\n   "` exactly as Python's `"\n   ".join` does for the two-element
`status_parts` list the source always builds. -/
def check_workflow_status (fs : FS) (workdir : String) (s : VState) :
    VState × Bool × String :=
  let r := structureGate fs workdir s
  let s1 := r.1
  let all_valid := structOutcomeOk r.2
    && (s1.forcefield_validated && strTruthy s1.validated_forcefield)
  let body := structStatusPart r.2 ++ "\n   " ++ forcefieldStatusPart s1
  let message :=
    if all_valid then "✅ WORKFLOW READY - All prerequisites met:\n   " ++ body
    else "❌ WORKFLOW HALTED - Prerequisites not met:\n   " ++ body
  (logV s1 "workflow" all_valid message, all_valid, message)

/-- `reset_validation_state` (the history is not cleared by the source). -/
def reset_validation_state (s : VState) : VState × String :=
  ({ s with structure_validated := false
            forcefield_validated := false
            system_prepared := false
            validated_structure_file := none
            validated_forcefield := none
            validated_system_file := none },
   "🔄 All validation states reset")

/-- The names registered by `_register_default_methods`. -/
def registered_methods : List String :=
  ["structure", "forcefield", "workflow_status", "system_ready"]

/-- `ValidationManager.validate` for the default-constructed manager: dispatch
over the default registration table; an unregistered name raises `ValueError`,
modelled as `Except.error`. -/
def validate (fs : FS) (workdir : String) (s : VState) (name : String)
    (pdb_file : String) (forcefield : String) : Except String (VState × Bool × String) :=
  if name == "structure" then .ok (validate_structure fs workdir s pdb_file)
  else if name == "forcefield" then
    .ok (validate_forcefield_coverage fs workdir s pdb_file forcefield)
  else if name == "workflow_status" then .ok (check_workflow_status fs workdir s)
  else if name == "system_ready" then .ok (check_system_ready fs s)
  else .error ("Validation method '" ++ name ++ "' is not registered.")

/-- Whether a `validate` call returned normally (no raise). -/
def exceptOk : Except String (VState × Bool × String) → Bool
  | .ok _ => true
  | .error _ => false

/-- One `ValidationManager` operation, paired at run time with the file system
visible during that call (artifacts may vanish between calls). -/
inductive Op where
  | vstruct (pdb_file : String)
  | vforcefield (pdb_file : String) (forcefield : String)
  | vsystem (system_file : String)
  | markStruct (pdb_file : String)
  | markForcefield (forcefield : String) (pdb_file : String)
  | checkStructStatus
  | checkWorkflow
  | checkSystemReady
  | reset

/-- Effect of one operation on the manager state. -/
def step (workdir : String) (c : FS × Op) (s : VState) : VState :=
  match c.2 with
  | .vstruct p => (validate_structure c.1 workdir s p).1
  | .vforcefield p ff => (validate_forcefield_coverage c.1 workdir s p ff).1
  | .vsystem p => (validate_system_preparation c.1 workdir s p).1
  | .markStruct p => (mark_structure_validated c.1 workdir s p).1
  | .markForcefield ff p => (mark_forcefield_validated s ff p).1
  | .checkStructStatus => (check_structure_status c.1 s).1
  | .checkWorkflow => (check_workflow_status c.1 workdir s).1
  | .checkSystemReady => (check_system_ready c.1 s).1
  | .reset => (reset_validation_state s).1

/-- Run a sequence of operations from the freshly constructed manager. -/
def runOps (workdir : String) (l : List (FS × Op)) : VState :=
  l.foldl (fun s c => step workdir c s) initState

/-- The flag–reference coupling: each validated/prepared flag implies its
stored reference is non-null. -/
def flagRefCoupled (s : VState) : Bool :=
  (!s.structure_validated || s.validated_structure_file.isSome)
    && (!s.forcefield_validated || s.validated_forcefield.isSome)
    && (!s.system_prepared || s.validated_system_file.isSome)

/-! ### `workflow_logger.py`: `WorkflowState`, `WorkflowLogger.export_events` -/

/-- A JSON value as produced for the `workflow_state` section by
`json.dump(state.model_dump(), ...)`: the state's fields are booleans,
optional strings and a string list, so only these shapes occur. -/
inductive JVal where
  | jbool (b : Bool)
  | jstr (s : String)
  | jnull
  | jarr (l : List String)
deriving DecidableEq

/-- The pydantic `WorkflowState` model. -/
structure WorkflowState where
  structure_downloaded : Bool
  structure_cleaned : Bool
  structure_solvated : Bool
  forcefield_validated : Bool
  system_prepared : Bool
  simulation_running : Bool
  simulation_completed : Bool
  analysis_completed : Bool
  current_pdb_file : Option String
  current_forcefield : Option String
  current_trajectory : Option String
  last_error : Option String
  warnings : List String
deriving DecidableEq

/-- JSON encoding of an `Optional[str]` field. -/
def optJ : Option String → JVal
  | none => .jnull
  | some s => .jstr s

/-- `WorkflowState.model_dump()` as the JSON object (key–value list) that
`json.dump` writes; field order is declaration order as in pydantic. -/
def WorkflowState.model_dump (s : WorkflowState) : List (String × JVal) :=
  [("structure_downloaded", .jbool s.structure_downloaded),
   ("structure_cleaned", .jbool s.structure_cleaned),
   ("structure_solvated", .jbool s.structure_solvated),
   ("forcefield_validated", .jbool s.forcefield_validated),
   ("system_prepared", .jbool s.system_prepared),
   ("simulation_running", .jbool s.simulation_running),
   ("simulation_completed", .jbool s.simulation_completed),
   ("analysis_completed", .jbool s.analysis_completed),
   ("current_pdb_file", optJ s.current_pdb_file),
   ("current_forcefield", optJ s.current_forcefield),
   ("current_trajectory", optJ s.current_trajectory),
   ("last_error", optJ s.last_error),
   ("warnings", .jarr s.warnings)]

/-- A `WorkflowEvent` (timestamp, context map and duration omitted: no claim
concerns them). -/
structure WorkflowEvent where
  event_type : String
  agent_name : Option String
  tool_name : Option String
  status : String
  message : String
deriving DecidableEq

/-- The in-memory `WorkflowLogger` instance. -/
structure WorkflowLogger where
  workdir : String
  events : List WorkflowEvent
  state : WorkflowState
  log_file : String

/-- The JSON document `export_events` writes (`events_data` at lines 255–263):
`workflow_state` is `state.model_dump()`, `events` the event dumps, `summary`
the counts and the log-file path. -/
structure ExportDoc where
  workflow_state : List (String × JVal)
  events : List WorkflowEvent
  summary_total_events : Nat
  summary_failures : Nat
  summary_log_file : String

/-- `WorkflowLogger.export_events`. -/
def export_events (lg : WorkflowLogger) : ExportDoc :=
  { workflow_state := lg.state.model_dump
    events := lg.events
    summary_total_events := lg.events.length
    summary_failures := (lg.events.filter (fun e => e.status == "failed")).length
    summary_log_file := lg.log_file }

/-- Key lookup in a JSON object. -/
def jlookup (doc : List (String × JVal)) (k : String) : Option JVal := doc.lookup k

/-- Read a boolean field back from the JSON object. -/
def loadBool (doc : List (String × JVal)) (k : String) : Bool :=
  match jlookup doc k with
  | some (.jbool b) => b
  | _ => false

/-- Read an optional-string field back from the JSON object. -/
def loadOptStr (doc : List (String × JVal)) (k : String) : Option String :=
  match jlookup doc k with
  | some (.jstr s) => some s
  | _ => none

/-- Read a string-list field back from the JSON object. -/
def loadStrList (doc : List (String × JVal)) (k : String) : List String :=
  match jlookup doc k with
  | some (.jarr l) => l
  | _ => []

/-- Modelled from the spec: the reload direction of the round-trip
("export then reconstruct state must reproduce the same flags/references").
The repository only writes the export (`json.dump` of `model_dump()`);
reconstruction — `json.load` followed by pydantic field-wise parsing of the
`workflow_state` section — is not in the source, so it is modelled here as
field-wise reads of the JSON object by key. -/
def load_workflow_state (doc : List (String × JVal)) : WorkflowState :=
  { structure_downloaded := loadBool doc "structure_downloaded"
    structure_cleaned := loadBool doc "structure_cleaned"
    structure_solvated := loadBool doc "structure_solvated"
    forcefield_validated := loadBool doc "forcefield_validated"
    system_prepared := loadBool doc "system_prepared"
    simulation_running := loadBool doc "simulation_running"
    simulation_completed := loadBool doc "simulation_completed"
    analysis_completed := loadBool doc "analysis_completed"
    current_pdb_file := loadOptStr doc "current_pdb_file"
    current_forcefield := loadOptStr doc "current_forcefield"
    current_trajectory := loadOptStr doc "current_trajectory"
    last_error := loadOptStr doc "last_error"
    warnings := loadStrList doc "warnings" }

/-! ### Shape and preservation lemmas -/

theorem validate_structure_shape (fs : FS) (wd : String) (s : VState) (p : String) :
    ((validate_structure fs wd s p).2.1 = false ∧
      (validate_structure fs wd s p).1 =
        logV s "structure" false (validate_structure fs wd s p).2.2) ∨
    ((validate_structure fs wd s p).2.1 = true ∧
      (validate_structure fs wd s p).1 =
        logV { s with structure_validated := true,
                      validated_structure_file := some (fullPath wd p) }
          "structure" true (validate_structure fs wd s p).2.2 ∧
      fs.pathExists (fullPath wd p) = true) := by
  unfold validate_structure
  cases hr : fs.read (fullPath wd p) <;> simp only [hr]
  · exact Or.inl ⟨by trivial, by trivial⟩
  · split
    · exact Or.inl ⟨by trivial, by trivial⟩
    · split
      · exact Or.inl ⟨by trivial, by trivial⟩
      · exact Or.inr ⟨by trivial, by trivial, by simp [FS.pathExists, hr]⟩


theorem validate_forcefield_coverage_shape (fs : FS) (wd : String) (s : VState)
    (p ff : String) :
    ((validate_forcefield_coverage fs wd s p ff).2.1 = false ∧
      (validate_forcefield_coverage fs wd s p ff).1 =
        logV s "forcefield" false (validate_forcefield_coverage fs wd s p ff).2.2) ∨
    ((validate_forcefield_coverage fs wd s p ff).2.1 = true ∧
      (validate_forcefield_coverage fs wd s p ff).1 =
        logV { s with forcefield_validated := true, validated_forcefield := some ff }
          "forcefield" true (validate_forcefield_coverage fs wd s p ff).2.2) := by
  unfold validate_forcefield_coverage
  cases hr : fs.read (fullPath wd p) <;> simp only [hr]
  · exact Or.inl ⟨by trivial, by trivial⟩
  · split
    · exact Or.inl ⟨by trivial, by trivial⟩
    · split
      · exact Or.inl ⟨by trivial, by trivial⟩
      · exact Or.inr ⟨by trivial, by trivial⟩

theorem validate_system_preparation_shape (fs : FS) (wd : String) (s : VState)
    (p : String) :
    ((validate_system_preparation fs wd s p).2.1 = false ∧
      (validate_system_preparation fs wd s p).1 =
        logV s "system" false (validate_system_preparation fs wd s p).2.2) ∨
    ((validate_system_preparation fs wd s p).2.1 = true ∧
      (validate_system_preparation fs wd s p).1 =
        logV { s with system_prepared := true,
                      validated_system_file := some (fullPath wd p) }
          "system" true (validate_system_preparation fs wd s p).2.2) := by
  unfold validate_system_preparation
  cases hr : fs.read (fullPath wd p) <;> simp only [hr]
  · exact Or.inl ⟨by trivial, by trivial⟩
  · split
    · exact Or.inl ⟨by trivial, by trivial⟩
    · exact Or.inr ⟨by trivial, by trivial⟩

theorem flagRefCoupled_logV (s : VState) (t : String) (ok : Bool) (m : String) :
    flagRefCoupled (logV s t ok m) = flagRefCoupled s := rfl

theorem validate_structure_coupled (fs : FS) (wd : String) (s : VState) (p : String)
    (h : flagRefCoupled s = true) :
    flagRefCoupled (validate_structure fs wd s p).1 = true := by
  rcases validate_structure_shape fs wd s p with ⟨_, hs⟩ | ⟨_, hs, _⟩ <;> rw [hs]
  · rw [flagRefCoupled_logV]; exact h
  · rw [flagRefCoupled_logV]
    revert h
    simp [flagRefCoupled]
    tauto

theorem validate_forcefield_coupled (fs : FS) (wd : String) (s : VState) (p ff : String)
    (h : flagRefCoupled s = true) :
    flagRefCoupled (validate_forcefield_coverage fs wd s p ff).1 = true := by
  rcases validate_forcefield_coverage_shape fs wd s p ff with ⟨_, hs⟩ | ⟨_, hs⟩ <;> rw [hs]
  · rw [flagRefCoupled_logV]; exact h
  · rw [flagRefCoupled_logV]
    revert h
    simp [flagRefCoupled]
    tauto

theorem validate_system_coupled (fs : FS) (wd : String) (s : VState) (p : String)
    (h : flagRefCoupled s = true) :
    flagRefCoupled (validate_system_preparation fs wd s p).1 = true := by
  rcases validate_system_preparation_shape fs wd s p with ⟨_, hs⟩ | ⟨_, hs⟩ <;> rw [hs]
  · rw [flagRefCoupled_logV]; exact h
  · rw [flagRefCoupled_logV]
    revert h
    simp [flagRefCoupled]
    tauto

theorem mark_structure_coupled (fs : FS) (wd : String) (s : VState) (p : String)
    (h : flagRefCoupled s = true) :
    flagRefCoupled (mark_structure_validated fs wd s p).1 = true := by
  unfold mark_structure_validated
  dsimp only
  split
  · rw [flagRefCoupled_logV]
    revert h
    simp [flagRefCoupled]
    tauto
  · exact h

theorem mark_forcefield_coupled (s : VState) (ff p : String)
    (h : flagRefCoupled s = true) :
    flagRefCoupled (mark_forcefield_validated s ff p).1 = true := by
  unfold mark_forcefield_validated
  rw [flagRefCoupled_logV]
  revert h
  simp [flagRefCoupled]
  tauto

theorem check_structure_status_coupled (fs : FS) (s : VState)
    (h : flagRefCoupled s = true) :
    flagRefCoupled (check_structure_status fs s).1 = true := by
  unfold check_structure_status
  dsimp only
  split
  · split
    · exact h
    · revert h
      simp [flagRefCoupled]
      tauto
  · exact h

theorem check_system_ready_coupled (fs : FS) (s : VState)
    (h : flagRefCoupled s = true) :
    flagRefCoupled (check_system_ready fs s).1 = true := by
  unfold check_system_ready
  dsimp only
  split
  · split
    · exact h
    · revert h
      simp [flagRefCoupled]
      tauto
  · exact h

theorem structureGate_coupled (fs : FS) (wd : String) (s : VState)
    (h : flagRefCoupled s = true) :
    flagRefCoupled (structureGate fs wd s).1 = true := by
  unfold structureGate structureDiscover
  dsimp only
  split
  · split
    · exact h
    · revert h
      simp [flagRefCoupled]
      tauto
  · split
    · exact h
    · split <;> exact validate_structure_coupled fs wd s _ h

theorem check_workflow_coupled (fs : FS) (wd : String) (s : VState)
    (h : flagRefCoupled s = true) :
    flagRefCoupled (check_workflow_status fs wd s).1 = true := by
  unfold check_workflow_status
  rw [flagRefCoupled_logV]
  exact structureGate_coupled fs wd s h

theorem reset_coupled (s : VState) : flagRefCoupled (reset_validation_state s).1 = true := by
  simp [reset_validation_state, flagRefCoupled]

theorem step_coupled (wd : String) (c : FS × Op) (s : VState)
    (h : flagRefCoupled s = true) : flagRefCoupled (step wd c s) = true := by
  cases hc : c.2 <;> simp only [step, hc]
  · exact validate_structure_coupled c.1 wd s _ h
  · exact validate_forcefield_coupled c.1 wd s _ _ h
  · exact validate_system_coupled c.1 wd s _ h
  · exact mark_structure_coupled c.1 wd s _ h
  · exact mark_forcefield_coupled s _ _ h
  · exact check_structure_status_coupled c.1 s h
  · exact check_workflow_coupled c.1 wd s h
  · exact check_system_ready_coupled c.1 s h
  · exact reset_coupled s

theorem foldl_coupled (wd : String) (l : List (FS × Op)) (s : VState)
    (h : flagRefCoupled s = true) :
    flagRefCoupled (l.foldl (fun s c => step wd c s) s) = true := by
  induction l generalizing s with
  | nil => exact h
  | cons c l ih => exact ih _ (step_coupled wd c s h)

/-- If the state claims a validated structure whose stored file is a
non-empty path absent from disk, the structure section of
`check_workflow_status` demotes the state and reports `missing`
without attempting discovery. -/
theorem structureGate_missing (fs : FS) (wd : String) (s : VState) (f : String)
    (hv : s.structure_validated = true) (hf : s.validated_structure_file = some f)
    (hne : f ≠ "") (hex : fs.pathExists f = false) :
    structureGate fs wd s =
      ({ s with structure_validated := false, validated_structure_file := none },
       .missing) := by
  have hfe : (f == "") = false := beq_eq_false_iff_ne.mpr hne
  unfold structureGate
  dsimp only
  rw [hf]
  simp [hv, hfe, hex]

/-! ### Claim theorems -/

/-- C1 (Demotion invariant): in every state where `structure_validated = true`
and `validated_structure_file` names a file (a non-empty path) absent from
disk, `check_workflow_status()` leaves `structure_validated = false` and
`validated_structure_file = none`, returns `can_continue = false`, and its
report lists the structure stage as failed ("❌ Structure file missing");
likewise `check_system_ready()` clears `system_prepared` and
`validated_system_file` when the stored system file is absent and reports
failure. -/
theorem demotion_invariant :
    (∀ (fs : FS) (wd : String) (s : VState) (f : String),
      s.structure_validated = true → s.validated_structure_file = some f → f ≠ "" →
      fs.pathExists f = false →
      (check_workflow_status fs wd s).1.structure_validated = false ∧
      (check_workflow_status fs wd s).1.validated_structure_file = none ∧
      (check_workflow_status fs wd s).2.1 = false ∧
      (check_workflow_status fs wd s).2.2 =
        "❌ WORKFLOW HALTED - Prerequisites not met:\n   " ++ "❌ Structure file missing"
          ++ "\n   " ++ forcefieldStatusPart s) ∧
    (∀ (fs : FS) (s : VState) (g : String),
      s.system_prepared = true → s.validated_system_file = some g → g ≠ "" →
      fs.pathExists g = false →
      (check_system_ready fs s).1.system_prepared = false ∧
      (check_system_ready fs s).1.validated_system_file = none ∧
      (check_system_ready fs s).2.1 = false ∧
      (check_system_ready fs s).2.2 = "❌ Prepared system file no longer exists") := by
  constructor
  · intro fs wd s f hv hf hne hex
    have hg := structureGate_missing fs wd s f hv hf hne hex
    unfold check_workflow_status
    rw [hg]
    refine ⟨by simp [logV], by simp [logV], by simp [structOutcomeOk], ?_⟩
    simp [logV, structOutcomeOk, structStatusPart, forcefieldStatusPart, String.append_assoc]
    rw [← String.append_assoc]
    rfl
  · intro fs s g hv hf hne hex
    have hfe : (g == "") = false := beq_eq_false_iff_ne.mpr hne
    unfold check_system_ready
    dsimp only
    rw [hf]
    simp [hv, hfe, hex]

/-- Witness for C1 at a concrete state and file system. -/
theorem demotion_invariant_witness :
    ((check_workflow_status ⟨[]⟩ "/w"
        { initState with structure_validated := true,
                         validated_structure_file := some "/w/a.pdb" }).1.structure_validated
        = false ∧
     (check_workflow_status ⟨[]⟩ "/w"
        { initState with structure_validated := true,
                         validated_structure_file := some "/w/a.pdb" }).1.validated_structure_file
        = none ∧
     (check_workflow_status ⟨[]⟩ "/w"
        { initState with structure_validated := true,
                         validated_structure_file := some "/w/a.pdb" }).2.1 = false ∧
     (check_workflow_status ⟨[]⟩ "/w"
        { initState with structure_validated := true,
                         validated_structure_file := some "/w/a.pdb" }).2.2 =
        "❌ WORKFLOW HALTED - Prerequisites not met:\n   " ++ "❌ Structure file missing"
          ++ "\n   " ++ forcefieldStatusPart
            { initState with structure_validated := true,
                             validated_structure_file := some "/w/a.pdb" }) ∧
    ((check_system_ready ⟨[]⟩
        { initState with system_prepared := true,
                         validated_system_file := some "/w/sys.pdb" }).1.system_prepared
        = false ∧
     (check_system_ready ⟨[]⟩
        { initState with system_prepared := true,
                         validated_system_file := some "/w/sys.pdb" }).1.validated_system_file
        = none ∧
     (check_system_ready ⟨[]⟩
        { initState with system_prepared := true,
                         validated_system_file := some "/w/sys.pdb" }).2.1 = false ∧
     (check_system_ready ⟨[]⟩
        { initState with system_prepared := true,
                         validated_system_file := some "/w/sys.pdb" }).2.2 =
        "❌ Prepared system file no longer exists") :=
  ⟨demotion_invariant.1 ⟨[]⟩ "/w"
      { initState with structure_validated := true,
                       validated_structure_file := some "/w/a.pdb" } "/w/a.pdb"
      rfl rfl (by decide) (by decide),
   demotion_invariant.2 ⟨[]⟩
      { initState with system_prepared := true,
                       validated_system_file := some "/w/sys.pdb" } "/w/sys.pdb"
      rfl rfl (by decide) (by decide)⟩

/-- C7 (Flag–reference coupling): in every state reachable from the fresh
manager by any sequence of operations (each seeing an arbitrary file system),
a validated/prepared flag being `true` implies the corresponding stored
reference is non-null; demotions clear flag and reference in the same update,
so a half-updated state is never observable. -/
theorem flag_reference_coupling (workdir : String) (ops : List (FS × Op)) :
    flagRefCoupled (runOps workdir ops) = true :=
  foldl_coupled workdir ops initState rfl

/-- C9 (Round-trip export): the `workflow_state` section of the document
written by `export_events()` reloads to exactly the stage flags and
references (all boolean flags, `current_pdb_file`, `current_forcefield`,
`current_trajectory`, and the rest of the state) of the live `WorkflowState`
at export time. -/
theorem export_round_trip (lg : WorkflowLogger) :
    load_workflow_state (export_events lg).workflow_state = lg.state := by
  obtain ⟨w, e, st, lf⟩ := lg
  obtain ⟨a1, a2, a3, a4, a5, a6, a7, a8, b1, b2, b3, b4, c⟩ := st
  cases b1 <;> cases b2 <;> cases b3 <;> cases b4 <;> rfl

/-- C10: `mark_forcefield_validated` unconditionally sets the flag, stores the
force-field name and returns a success message — no disk or registry check —
whereas `mark_structure_validated` refuses and leaves the state unchanged
when its file is absent. -/
theorem mark_forcefield_unconditional :
    (∀ (s : VState) (ff pdb : String),
      (mark_forcefield_validated s ff pdb).1.forcefield_validated = true ∧
      (mark_forcefield_validated s ff pdb).1.validated_forcefield = some ff ∧
      (mark_forcefield_validated s ff pdb).2 =
        "✅ Force field marked as validated: " ++ ff) ∧
    (∀ (fs : FS) (wd : String) (s : VState) (pdb : String),
      fs.pathExists (fullPath wd pdb) = false →
      mark_structure_validated fs wd s pdb =
        (s, "❌ Cannot mark as validated - file not found: " ++ pdb)) := by
  constructor
  · intro s ff pdb
    exact ⟨rfl, rfl, rfl⟩
  · intro fs wd s pdb h
    unfold mark_structure_validated
    dsimp only
    simp [h]

/-- Witness for C10: an absent file and a force field outside the registry. -/
theorem mark_forcefield_unconditional_witness :
    ((mark_forcefield_validated initState "mystery-ff-2099" "ghost.pdb").1.forcefield_validated
        = true ∧
     (mark_forcefield_validated initState "mystery-ff-2099" "ghost.pdb").1.validated_forcefield
        = some "mystery-ff-2099" ∧
     (mark_forcefield_validated initState "mystery-ff-2099" "ghost.pdb").2 =
        "✅ Force field marked as validated: " ++ "mystery-ff-2099") ∧
    mark_structure_validated ⟨[]⟩ "/w" initState "ghost.pdb" =
      (initState, "❌ Cannot mark as validated - file not found: " ++ "ghost.pdb") :=
  ⟨mark_forcefield_unconditional.1 initState "mystery-ff-2099" "ghost.pdb",
   mark_forcefield_unconditional.2 ⟨[]⟩ "/w" initState "ghost.pdb" (by decide)⟩

/-- `registered_methods.contains` flattened over the four default names. -/
theorem contains_registered (name : String) :
    registered_methods.contains name =
      (name == "structure" || name == "forcefield"
        || name == "workflow_status" || name == "system_ready") := by
  unfold registered_methods
  cases h1 : name == "structure" <;> cases h2 : name == "forcefield" <;>
    cases h3 : name == "workflow_status" <;> cases h4 : name == "system_ready" <;>
    simp [List.contains, List.elem, h1, h2, h3, h4]

/-- C8 (Raises-iff-unregistered): `validate(name, ...)` raises (returns
`Except.error`) exactly when `name` is not one of the registered validation
methods; for every registered name and every file-system state it returns a
structured result (`Except.ok`), never raising on missing files or malformed
content. -/
theorem validate_raises_iff_unregistered (fs : FS) (wd : String) (s : VState)
    (name pdb ff : String) :
    exceptOk (validate fs wd s name pdb ff) = registered_methods.contains name := by
  rw [contains_registered]
  unfold validate exceptOk
  cases h1 : name == "structure" <;> cases h2 : name == "forcefield" <;>
    cases h3 : name == "workflow_status" <;> cases h4 : name == "system_ready" <;>
    simp [h1, h2, h3, h4]

/-- Every member of an issue list occurs in its `"\n   "`-join. -/
theorem joinIssues_mem_infix (l : List String) (x : String) (hx : x ∈ l) :
    ∃ a b : String, joinIssues l = a ++ x ++ b := by
  induction l with
  | nil => cases hx
  | cons y ys ih =>
    cases ys with
    | nil =>
      have hxy : x = y := List.mem_singleton.mp hx
      refine ⟨"", "", ?_⟩
      rw [hxy]
      simp [joinIssues, String.empty_append, String.append_empty]
    | cons z zs =>
      rcases List.mem_cons.mp hx with heq | hmem
      · refine ⟨"", "\n   " ++ joinIssues (z :: zs), ?_⟩
        rw [heq]
        simp [joinIssues, String.empty_append, String.append_assoc]
      · rcases ih hmem with ⟨a, b, hab⟩
        refine ⟨y ++ "\n   " ++ a, b, ?_⟩
        simp [joinIssues, hab, String.append_assoc]

/-- The issue list is empty exactly when no composition threshold is hit. -/
theorem prepIssues_eq_nil_iff (lines : List Line) :
    prepIssues lines = [] ↔
      ¬proteinCount lines < 100 ∧ ¬waterCount lines < 100 ∧ ionCount lines ≠ 0 := by
  unfold prepIssues
  split_ifs <;> simp_all

/-- C5 (Multi-issue reporting): for every existing system-preparation
artifact, `validate_system_preparation` returns a single result that fails
exactly when some threshold issue is present (protein atoms < 100, water
atoms < 100, ion count = 0); on failure the message is the fixed header
followed by the join of the full issue list, every issue string of that list
occurs in the message, and each threshold issue that is present contributes
its string to the list — so the message enumerates every issue present, not
only the first. -/
theorem system_preparation_multi_issue (fs : FS) (wd : String) (s : VState)
    (file : String) (lines : List Line)
    (hr : fs.read (fullPath wd file) = some lines) :
    ((validate_system_preparation fs wd s file).2.1 = false ↔
      (proteinCount lines < 100 ∨ waterCount lines < 100 ∨ ionCount lines = 0)) ∧
    (prepIssues lines ≠ [] →
      (validate_system_preparation fs wd s file).2.2 =
        "⚠️ System preparation issues:\n   " ++ joinIssues (prepIssues lines)) ∧
    (∀ i ∈ prepIssues lines, ∃ a b : String,
      (validate_system_preparation fs wd s file).2.2 = a ++ i ++ b) ∧
    (proteinCount lines < 100 →
      "Low protein atom count: " ++ Nat.repr (proteinCount lines)
        ∈ prepIssues lines) ∧
    (waterCount lines < 100 →
      "Low water count: " ++ Nat.repr (waterCount lines)
        ++ " - may need more solvation" ∈ prepIssues lines) ∧
    (ionCount lines = 0 →
      "No ions found - system may not be neutralized" ∈ prepIssues lines) := by
  have hmem₁ : proteinCount lines < 100 →
      "Low protein atom count: " ++ Nat.repr (proteinCount lines)
        ∈ prepIssues lines := by
    intro hp
    unfold prepIssues
    simp [hp]
  have hmem₂ : waterCount lines < 100 →
      "Low water count: " ++ Nat.repr (waterCount lines)
        ++ " - may need more solvation" ∈ prepIssues lines := by
    intro hw
    unfold prepIssues
    simp [hw]
  have hmem₃ : ionCount lines = 0 →
      "No ions found - system may not be neutralized" ∈ prepIssues lines := by
    intro hi
    unfold prepIssues
    simp [hi]
  by_cases hni : prepIssues lines = []
  · have hno := (prepIssues_eq_nil_iff lines).mp hni
    have hpassed : (validate_system_preparation fs wd s file).2.1 = true := by
      unfold validate_system_preparation
      dsimp only
      rw [hr]
      dsimp only
      simp [hni]
    refine ⟨?_, ?_, ?_, hmem₁, hmem₂, hmem₃⟩
    · rw [hpassed]
      simp [hno.1, hno.2.1, hno.2.2]
    · intro hcon
      exact absurd hni hcon
    · intro i hi
      rw [hni] at hi
      cases hi
  · have hisE : (prepIssues lines).isEmpty = false := by
      cases hc : prepIssues lines with
      | nil => exact absurd hc hni
      | cons a l => rfl
    have hfail : (validate_system_preparation fs wd s file).2.1 = false ∧
        (validate_system_preparation fs wd s file).2.2 =
          "⚠️ System preparation issues:\n   " ++ joinIssues (prepIssues lines) := by
      unfold validate_system_preparation
      dsimp only
      rw [hr]
      dsimp only
      simp [hisE]
    refine ⟨?_, fun _ => hfail.2, ?_, hmem₁, hmem₂, hmem₃⟩
    · rw [hfail.1]
      constructor
      · intro _
        by_contra hcon
        push_neg at hcon
        exact hni ((prepIssues_eq_nil_iff lines).mpr
          ⟨Nat.not_lt.mpr hcon.1, Nat.not_lt.mpr hcon.2.1, hcon.2.2⟩)
      · intro _
        rfl
    · intro i hi
      rcases joinIssues_mem_infix (prepIssues lines) i hi with ⟨a, b, hab⟩
      refine ⟨"⚠️ System preparation issues:\n   " ++ a, b, ?_⟩
      rw [hfail.2, hab]
      simp [String.append_assoc]

/-! ### Concrete artifacts used by witnesses and counterexamples -/

/-- Build one fixed-width ATOM record: columns 0–3 `ATOM`, 12–15 atom name,
17–19 residue name, 21 chain, 22–25 residue number (length 26). -/
def mkAtomLine (atomName resname : String) (chain : Char) (resnum : String) : Line :=
  "ATOM".toList ++ List.replicate 8 ' '
    ++ (atomName.toList ++ List.replicate (4 - atomName.length) ' ')
    ++ [' '] ++ resname.toList ++ [' '] ++ [chain]
    ++ (List.replicate (4 - resnum.length) ' ' ++ resnum.toList)

/-- A well-formed 10-record peptide: three residues, backbone N/CA/C present. -/
def samplePdbLines : List Line :=
  [mkAtomLine "N" "ALA" 'A' "1", mkAtomLine "CA" "ALA" 'A' "1",
   mkAtomLine "C" "ALA" 'A' "1", mkAtomLine "O" "ALA" 'A' "1",
   mkAtomLine "CB" "ALA" 'A' "1", mkAtomLine "N" "GLY" 'A' "2",
   mkAtomLine "CA" "GLY" 'A' "2", mkAtomLine "C" "GLY" 'A' "2",
   mkAtomLine "O" "GLY" 'A' "2", mkAtomLine "N" "VAL" 'A' "3"]

/-- A one-record ligand file whose residue name `XYZ` is outside every
residue set the force-field check knows. -/
def ligandLines : List Line := [mkAtomLine "C1" "XYZ" 'A' "1"]

/-- File system holding only the ligand file. -/
def ligandFS : FS := ⟨[("/w/lig.pdb", ligandLines)]⟩

/-- Ten records that all carry atom name `CA`: backbone CA present, N and C
absent, residue `ALA` standard. -/
def onlyCALines : List Line := List.replicate 10 (mkAtomLine "CA" "ALA" 'A' "1")

/-- File system holding only the CA-only file. -/
def onlyCAFS : FS := ⟨[("/w/ca.pdb", onlyCALines)]⟩

/-- Build one fixed-width HETATM record (columns 0–5 `HETATM`, the remaining
columns as in `mkAtomLine`). -/
def mkHetLine (atomName resname : String) (chain : Char) (resnum : String) : Line :=
  "HETATM".toList ++ List.replicate 6 ' '
    ++ (atomName.toList ++ List.replicate (4 - atomName.length) ' ')
    ++ [' '] ++ resname.toList ++ [' '] ++ [chain]
    ++ (List.replicate (4 - resnum.length) ' ' ++ resnum.toList)

/-- Ten records where the amino-acid (`ALA`) records carry only CB/O atom
names while the backbone markers N, C and CA appear solely in non-amino-acid
`LIG` HETATM records: globally no marker is missing, although all three are
absent among the amino-acid records. -/
def hetBackboneLines : List Line :=
  [mkAtomLine "CB" "ALA" 'A' "1", mkAtomLine "O" "ALA" 'A' "1",
   mkAtomLine "CB" "ALA" 'A' "2", mkAtomLine "O" "ALA" 'A' "2",
   mkAtomLine "CB" "ALA" 'A' "3", mkAtomLine "O" "ALA" 'A' "3",
   mkAtomLine "CB" "ALA" 'A' "4",
   mkHetLine "N" "LIG" 'B' "9", mkHetLine "C" "LIG" 'B' "9",
   mkHetLine "CA" "LIG" 'B' "9"]

/-- File system holding only the mixed ATOM/HETATM file. -/
def hetBackboneFS : FS := ⟨[("/w/het.pdb", hetBackboneLines)]⟩

/-- A solvated-system file with 50 water records, 100 protein records and no
ions. -/
def lowWaterSysLines : List Line :=
  List.replicate 50 (mkAtomLine "O" "HOH" 'A' "9")
    ++ List.replicate 100 (mkAtomLine "CA" "ALA" 'A' "1")

/-- File system holding only the low-water system file. -/
def lowWaterSysFS : FS := ⟨[("/w/sys.pdb", lowWaterSysLines)]⟩

/-- File system holding a valid candidate `other.pdb` while the state below
still references the deleted `gone.pdb`. -/
def staleFS : FS := ⟨[("/w/other.pdb", samplePdbLines)]⟩

/-- A state claiming a validated structure whose file has been deleted. -/
def staleState : VState :=
  { initState with structure_validated := true,
                   validated_structure_file := some "/w/gone.pdb" }

/-- Witness for C5 at the concrete low-water, no-ion system file: the call
fails and its single message contains both the low-water and the no-ions
issue strings. -/
theorem system_preparation_multi_issue_witness :
    FS.read lowWaterSysFS (fullPath "/w" "sys.pdb") = some lowWaterSysLines ∧
    waterCount lowWaterSysLines = 50 ∧ ionCount lowWaterSysLines = 0 ∧
    (validate_system_preparation lowWaterSysFS "/w" initState "sys.pdb").2.1
      = false ∧
    (∃ a b : String,
      (validate_system_preparation lowWaterSysFS "/w" initState "sys.pdb").2.2 =
        a ++ "Low water count: 50 - may need more solvation" ++ b) ∧
    (∃ a b : String,
      (validate_system_preparation lowWaterSysFS "/w" initState "sys.pdb").2.2 =
        a ++ "No ions found - system may not be neutralized" ++ b) := by
  have h := system_preparation_multi_issue lowWaterSysFS "/w" initState "sys.pdb"
    lowWaterSysLines rfl
  refine ⟨rfl, by decide, by decide, ?_, ?_, ?_⟩
  · exact h.1.mpr (Or.inr (Or.inl (by decide)))
  · exact h.2.2.1 "Low water count: 50 - may need more solvation" (by decide)
  · exact h.2.2.1 "No ions found - system may not be neutralized" (by decide)

/-- C2 counterexample: with the registry force field `amber14-all.xml` and an
existing PDB whose residue vocabulary leaves `XYZ` uncovered,
`validate_forcefield_coverage` returns `passed = false`, does not set
`forcefield_validated`, and the gate does not pass afterwards — the coverage
gap does block the workflow, contradicting the claim that by default the
result does not block. -/
theorem coverage_gap_blocks_counterexample :
    knownFF "amber14-all.xml" = true ∧
    unknownResidues ligandLines ≠ [] ∧
    (validate_forcefield_coverage ligandFS "/w" initState "lig.pdb"
      "amber14-all.xml").2.1 = false ∧
    (validate_forcefield_coverage ligandFS "/w" initState "lig.pdb"
      "amber14-all.xml").1.forcefield_validated = false ∧
    (check_workflow_status ligandFS "/w"
      (validate_forcefield_coverage ligandFS "/w" initState "lig.pdb"
        "amber14-all.xml").1).2.1 = false := by
  decide

/-- C2 as amended: for every existing PDB whose residue vocabulary minus the
known sets is non-empty and every recognized force-field name,
`validate_forcefield_coverage` reports the gap with a warning-marked message
(`⚠️` prefix, distinguishable from the `❌` hard-failure messages), but the
result is a failure: `passed = false` and `forcefield_validated` is left
unset, so by default the gap blocks the workflow rather than letting
simulation proceed. -/
theorem coverage_gap_warning_but_blocking (fs : FS) (wd : String) (s : VState)
    (p ff : String) (lines : List Line)
    (hr : fs.read (fullPath wd p) = some lines)
    (hk : knownFF ff = true)
    (hu : (unknownResidues lines).isEmpty = false) :
    (validate_forcefield_coverage fs wd s p ff).2.1 = false ∧
    (validate_forcefield_coverage fs wd s p ff).1.forcefield_validated
      = s.forcefield_validated ∧
    (validate_forcefield_coverage fs wd s p ff).2.2 =
      "⚠️ Force field may not cover residue types: "
        ++ renderNameSet (unknownResidues lines)
        ++ "\n   Consider removing non-standard residues or adding parameters" := by
  have hsu : (unsupportedResidues lines).isEmpty = false := by
    cases hcase : unsupportedResidues lines with
    | nil =>
      exfalso
      unfold unknownResidues at hu
      rw [hcase] at hu
      simp at hu
    | cons a l => rfl
  unfold validate_forcefield_coverage
  dsimp only
  rw [hr]
  dsimp only
  simp [hk, hsu, hu, logV]

/-- Witness for the amended C2 at the concrete ligand file. -/
theorem coverage_gap_warning_but_blocking_witness :
    FS.read ligandFS (fullPath "/w" "lig.pdb") = some ligandLines ∧
    knownFF "amber14-all.xml" = true ∧
    (unknownResidues ligandLines).isEmpty = false ∧
    ((validate_forcefield_coverage ligandFS "/w" initState "lig.pdb"
        "amber14-all.xml").2.1 = false ∧
     (validate_forcefield_coverage ligandFS "/w" initState "lig.pdb"
        "amber14-all.xml").1.forcefield_validated = initState.forcefield_validated ∧
     (validate_forcefield_coverage ligandFS "/w" initState "lig.pdb"
        "amber14-all.xml").2.2 =
       "⚠️ Force field may not cover residue types: "
         ++ renderNameSet (unknownResidues ligandLines)
         ++ "\n   Consider removing non-standard residues or adding parameters") :=
  ⟨rfl, by decide, by decide,
   coverage_gap_warning_but_blocking ligandFS "/w" initState "lig.pdb"
     "amber14-all.xml" ligandLines rfl (by decide) (by decide)⟩

/-- C4 counterexample: a 10-record file of `ALA` residues whose only backbone
atom name is `CA` — the backbone markers are not entirely absent, yet
`validate_structure` still fails (and the failure is a `passed = false`
result, so it is blocking), contradicting "only when the backbone marker
atoms (N, C, CA) are entirely absent". -/
theorem backbone_partial_absence_counterexample :
    (foundBackbone (atomRecords onlyCALines)).contains ("CA".toList) = true ∧
    (aaResidues (atomRecords onlyCALines)).length > 0 ∧
    (validate_structure onlyCAFS "/w" initState "ca.pdb").2.1 = false ∧
    (validate_structure onlyCAFS "/w" initState "ca.pdb").1.structure_validated
      = false := by
  decide

/-- C4 as amended: for every existing PDB with at least 10 ATOM/HETATM
records and at least one standard amino-acid residue, `validate_structure`
fails with the warning-marked message `⚠️ Missing backbone atoms: …` exactly
when at least one of the backbone markers N, C, CA is absent from the
atom-name fields of all ATOM/HETATM records — a marker found in any record,
amino-acid or not, counts, so presence only outside the amino-acid residues
already prevents the failure, and when no marker is missing the structure
validates and is promoted; the failure is a `passed = false` result that
leaves `structure_validated` unchanged, hence blocking. -/
theorem backbone_missing_warning_failure (fs : FS) (wd : String) (s : VState)
    (p : String) (lines : List Line)
    (hr : fs.read (fullPath wd p) = some lines)
    (h10 : ¬(atomRecords lines).length < 10)
    (haa : (aaResidues (atomRecords lines)).length > 0) :
    (validate_structure fs wd s p).2.1
      = (missingBackbone (atomRecords lines)).isEmpty ∧
    ((missingBackbone (atomRecords lines)).isEmpty = false →
      (validate_structure fs wd s p).2.1 = false ∧
      (validate_structure fs wd s p).1.structure_validated
        = s.structure_validated ∧
      (validate_structure fs wd s p).2.2 =
        "⚠️ Missing backbone atoms: "
          ++ renderNameSet (missingBackbone (atomRecords lines))) ∧
    ((missingBackbone (atomRecords lines)).isEmpty = true →
      (validate_structure fs wd s p).2.1 = true ∧
      (validate_structure fs wd s p).1.structure_validated = true ∧
      (validate_structure fs wd s p).1.validated_structure_file
        = some (fullPath wd p)) := by
  unfold validate_structure
  dsimp only
  rw [hr]
  dsimp only
  cases hmb : (missingBackbone (atomRecords lines)).isEmpty with
  | false => simp [h10, haa, hmb, logV]
  | true => simp [h10, haa, hmb, logV]

/-- Witness for the amended C4, exercising both directions of the trigger:
at the CA-only file one marker is missing and the call fails with the ⚠️
message; at the mixed file whose markers appear only in non-amino-acid
HETATM records no marker is globally missing — even though all three are
absent among the amino-acid records — and the call validates and promotes,
separating the global trigger from an amino-acid-restricted one. -/
theorem backbone_missing_warning_failure_witness :
    (FS.read onlyCAFS (fullPath "/w" "ca.pdb") = some onlyCALines ∧
     ¬(atomRecords onlyCALines).length < 10 ∧
     (aaResidues (atomRecords onlyCALines)).length > 0 ∧
     (missingBackbone (atomRecords onlyCALines)).isEmpty = false ∧
     (validate_structure onlyCAFS "/w" initState "ca.pdb").2.1 = false ∧
     (validate_structure onlyCAFS "/w" initState "ca.pdb").1.structure_validated
       = initState.structure_validated ∧
     (validate_structure onlyCAFS "/w" initState "ca.pdb").2.2 =
       "⚠️ Missing backbone atoms: "
         ++ renderNameSet (missingBackbone (atomRecords onlyCALines))) ∧
    (FS.read hetBackboneFS (fullPath "/w" "het.pdb") = some hetBackboneLines ∧
     ¬(atomRecords hetBackboneLines).length < 10 ∧
     (aaResidues (atomRecords hetBackboneLines)).length > 0 ∧
     (missingBackbone (atomRecords hetBackboneLines)).isEmpty = true ∧
     ((atomRecords hetBackboneLines).filter
        (fun l => standard_aa.contains (resnameOf l))).all
       (fun l => !(backbone_atoms.contains (strip (slice l 12 16)))) = true ∧
     (validate_structure hetBackboneFS "/w" initState "het.pdb").2.1 = true ∧
     (validate_structure hetBackboneFS "/w" initState "het.pdb").1.structure_validated
       = true) := by
  have h₁ := backbone_missing_warning_failure onlyCAFS "/w" initState "ca.pdb"
    onlyCALines rfl (by decide) (by decide)
  have h₂ := backbone_missing_warning_failure hetBackboneFS "/w" initState "het.pdb"
    hetBackboneLines rfl (by decide) (by decide)
  have hca := h₁.2.1 (by decide)
  have hhet := h₂.2.2 (by decide)
  exact ⟨⟨rfl, by decide, by decide, by decide, hca.1, hca.2.1, hca.2.2⟩,
         ⟨rfl, by decide, by decide, by decide, by decide, hhet.1, hhet.2.1⟩⟩

/-- `fullPath` never produces the empty string. -/
theorem fullPath_ne_empty (wd p : String) : fullPath wd p ≠ "" := by
  unfold fullPath
  split
  · rename_i h
    intro hcon
    rw [hcon] at h
    simp [isAbs, lstartsWith] at h
  · intro hcon
    have h2 := congrArg String.length hcon
    simp [joinPath, String.length_append] at h2
    exact absurd h2.1.2 (by decide)

/-- C3 counterexample: the stored structure file is gone while a valid
candidate `other.pdb` sits in the working directory and would pass the
validator; yet the demoting `check_workflow_status()` call records outcome
`missing` — no discovery, no validator run — and ends with
`structure_validated = false`, contradicting the claimed same-call
fall-through to auto-discovery. -/
theorem demotion_no_autodiscovery_counterexample :
    find_pdb_files staleFS "/w" = ["/w/other.pdb"] ∧
    (validate_structure staleFS "/w" initState "/w/other.pdb").2.1 = true ∧
    structureGate staleFS "/w" staleState = (initState, .missing) ∧
    (check_workflow_status staleFS "/w" staleState).1.structure_validated = false ∧
    (check_workflow_status staleFS "/w" staleState).1.validation_history.all
      (fun e => e.htype != "structure") = true := by
  decide

/-- C3 as amended: when `structure_validated = true` but the stored file (a
non-empty path) is absent, `check_workflow_status()` demotes the state and
reports "Structure file missing" without attempting auto-discovery in that
same call (outcome `missing`); auto-discovery runs only on a subsequent call,
whose structure section then takes the discovery path. -/
theorem demotion_defers_autodiscovery (fs : FS) (wd : String) (s : VState)
    (f : String)
    (hv : s.structure_validated = true) (hf : s.validated_structure_file = some f)
    (hne : f ≠ "") (hex : fs.pathExists f = false) :
    structureGate fs wd s =
      ({ s with structure_validated := false, validated_structure_file := none },
       .missing) ∧
    (check_workflow_status fs wd s).1.structure_validated = false ∧
    (check_workflow_status fs wd s).1.validated_structure_file = none ∧
    structureGate fs wd (check_workflow_status fs wd s).1 =
      structureDiscover fs wd (check_workflow_status fs wd s).1 := by
  have hg := structureGate_missing fs wd s f hv hf hne hex
  have h1 : (check_workflow_status fs wd s).1.structure_validated = false := by
    unfold check_workflow_status
    rw [hg]
    simp [logV]
  refine ⟨hg, h1, ?_, ?_⟩
  · unfold check_workflow_status
    rw [hg]
    simp [logV]
  · unfold structureGate
    dsimp only
    rw [h1]
    simp

/-- Witness for the amended C3 at the stale state over `staleFS`. -/
theorem demotion_defers_autodiscovery_witness :
    staleState.structure_validated = true ∧
    staleState.validated_structure_file = some "/w/gone.pdb" ∧
    "/w/gone.pdb" ≠ "" ∧
    FS.pathExists staleFS "/w/gone.pdb" = false ∧
    (structureGate staleFS "/w" staleState =
      ({ staleState with structure_validated := false,
                         validated_structure_file := none }, .missing) ∧
     (check_workflow_status staleFS "/w" staleState).1.structure_validated = false ∧
     (check_workflow_status staleFS "/w" staleState).1.validated_structure_file = none ∧
     structureGate staleFS "/w" (check_workflow_status staleFS "/w" staleState).1 =
       structureDiscover staleFS "/w" (check_workflow_status staleFS "/w" staleState).1) :=
  ⟨rfl, rfl, by decide, by decide,
   demotion_defers_autodiscovery staleFS "/w" staleState "/w/gone.pdb"
     rfl rfl (by decide) (by decide)⟩

/-- The structure fields of `check_workflow_status`'s post-state are those of
its `structureGate` post-state (the final `logV` only appends history). -/
theorem check_workflow_post_structure (fs : FS) (wd : String) (s : VState) :
    (check_workflow_status fs wd s).1.structure_validated
      = (structureGate fs wd s).1.structure_validated ∧
    (check_workflow_status fs wd s).1.validated_structure_file
      = (structureGate fs wd s).1.validated_structure_file := by
  unfold check_workflow_status
  constructor <;> simp [logV]

/-- File system holding exactly one `.pdb` candidate, which validates. -/
def sampleFS : FS := ⟨[("/w/prot.pdb", samplePdbLines)]⟩

/-- C6 (Auto-discovery monotonicity): if the structure stage is unvalidated,
exactly one `.pdb` candidate exists in the working directory and it passes
`validate_structure`, then `check_workflow_status()` promotes the state
(`structure_validated = true`, the candidate stored as reference), and an
immediately subsequent call with the file still present takes the
stored-reference branch (`storedOk`) — by construction the branch that runs
neither directory discovery nor the validator — reporting the stage satisfied
from the stored reference and leaving the structure state unchanged. -/
theorem autodiscovery_monotonicity (fs : FS) (wd : String) (s : VState) (p : String)
    (h0 : s.structure_validated = false)
    (hfind : find_pdb_files fs wd = [p])
    (hpass : (validate_structure fs wd s p).2.1 = true) :
    structureGate fs wd s =
      ((validate_structure fs wd s p).1,
       .autoDetected p (validate_structure fs wd s p).2.2) ∧
    (check_workflow_status fs wd s).1.structure_validated = true ∧
    (check_workflow_status fs wd s).1.validated_structure_file
      = some (fullPath wd p) ∧
    structureGate fs wd (check_workflow_status fs wd s).1 =
      ((check_workflow_status fs wd s).1, .storedOk (fullPath wd p)) ∧
    structStatusPart (structureGate fs wd (check_workflow_status fs wd s).1).2 =
      "✅ Structure: " ++ basename (fullPath wd p) ∧
    (check_workflow_status fs wd
        (check_workflow_status fs wd s).1).1.structure_validated = true ∧
    (check_workflow_status fs wd
        (check_workflow_status fs wd s).1).1.validated_structure_file
      = some (fullPath wd p) := by
  rcases validate_structure_shape fs wd s p with ⟨hfalse, _⟩ | ⟨_, hstate, hexists⟩
  · rw [hfalse] at hpass
    exact absurd hpass (by simp)
  have hgate : structureGate fs wd s =
      ((validate_structure fs wd s p).1,
       .autoDetected p (validate_structure fs wd s p).2.2) := by
    unfold structureGate structureDiscover
    dsimp only
    rw [h0, hfind]
    simp [hpass]
  have hpost_sv : (check_workflow_status fs wd s).1.structure_validated = true := by
    unfold check_workflow_status
    rw [hgate]
    dsimp only
    rw [hstate]
    simp [logV]
  have hpost_file : (check_workflow_status fs wd s).1.validated_structure_file
      = some (fullPath wd p) := by
    unfold check_workflow_status
    rw [hgate]
    dsimp only
    rw [hstate]
    simp [logV]
  have hbe : ((fullPath wd p : String) == "") = false :=
    beq_eq_false_iff_ne.mpr (fullPath_ne_empty wd p)
  have hg2 : structureGate fs wd (check_workflow_status fs wd s).1 =
      ((check_workflow_status fs wd s).1, .storedOk (fullPath wd p)) := by
    unfold structureGate
    dsimp only
    rw [hpost_sv, hpost_file]
    simp [hbe, hexists]
  refine ⟨hgate, hpost_sv, hpost_file, hg2, ?_, ?_, ?_⟩
  · rw [hg2]
    rfl
  · rw [(check_workflow_post_structure fs wd _).1, hg2]
    exact hpost_sv
  · rw [(check_workflow_post_structure fs wd _).2, hg2]
    exact hpost_file

/-- Witness for C6 at a file system holding exactly one valid candidate. -/
theorem autodiscovery_monotonicity_witness :
    initState.structure_validated = false ∧
    find_pdb_files sampleFS "/w" = ["/w/prot.pdb"] ∧
    (validate_structure sampleFS "/w" initState "/w/prot.pdb").2.1 = true ∧
    (structureGate sampleFS "/w" initState =
      ((validate_structure sampleFS "/w" initState "/w/prot.pdb").1,
       .autoDetected "/w/prot.pdb"
         (validate_structure sampleFS "/w" initState "/w/prot.pdb").2.2) ∧
     (check_workflow_status sampleFS "/w" initState).1.structure_validated = true ∧
     (check_workflow_status sampleFS "/w" initState).1.validated_structure_file
       = some (fullPath "/w" "/w/prot.pdb") ∧
     structureGate sampleFS "/w" (check_workflow_status sampleFS "/w" initState).1 =
       ((check_workflow_status sampleFS "/w" initState).1,
        .storedOk (fullPath "/w" "/w/prot.pdb")) ∧
     structStatusPart
        (structureGate sampleFS "/w"
          (check_workflow_status sampleFS "/w" initState).1).2 =
       "✅ Structure: " ++ basename (fullPath "/w" "/w/prot.pdb") ∧
     (check_workflow_status sampleFS "/w"
        (check_workflow_status sampleFS "/w" initState).1).1.structure_validated
       = true ∧
     (check_workflow_status sampleFS "/w"
        (check_workflow_status sampleFS "/w" initState).1).1.validated_structure_file
       = some (fullPath "/w" "/w/prot.pdb")) :=
  ⟨rfl, by decide, by decide,
   autodiscovery_monotonicity sampleFS "/w" initState "/w/prot.pdb"
     rfl (by decide) (by decide)⟩

end MDAgents
